import Mathlib

/-!
Shallow embedding of the TutorialLLM transformer (src/model.py) over the reals.

Tensors of statically known shape are modelled as curried functions out of
`Fin`-types; the dynamically shaped tensors that `TutorialLLM.forward` returns
(the code reshapes logits with `.view` before returning them) are modelled by
`STensor`, a shape list together with the flattened data, mirroring
`torch.Tensor`.  Floating point is idealised as `ℝ`: `exp`, `log`, `sqrt` are
the real functions, and the `-inf` entries produced by `masked_fill` are
modelled by `Option ℝ` (`none` = `-inf`) with `exp (-inf) = 0`, which is
exactly the value PyTorch's softmax assigns to fully masked scores.
-/

namespace Model

open scoped Classical

/-- A dynamically shaped tensor: a shape and the row-major flattened data.
This mirrors `torch.Tensor` just enough to talk about the shapes that
`TutorialLLM.forward` returns. -/
structure STensor where
  shape : List ℕ
  data : List ℝ

/-- `torch.Tensor.view`: reinterpret the same data under a new shape. -/
def STensor.view (s : STensor) (newShape : List ℕ) : STensor :=
  ⟨newShape, s.data⟩

/-- Materialize a rank-1 tensor from a `Fin`-indexed function. -/
def tensor1 (n : ℕ) (f : Fin n → ℝ) : STensor :=
  ⟨[n], (List.finRange n).map f⟩

/-- Materialize a rank-3 tensor (row-major) from a `Fin`-indexed function. -/
def tensor3 (b t v : ℕ) (f : Fin b → Fin t → Fin v → ℝ) : STensor :=
  ⟨[b, t, v],
   ((List.finRange b).map (fun i =>
      ((List.finRange t).map (fun j =>
        (List.finRange v).map (fun k => f i j k))).flatten)).flatten⟩

/-- `torch.relu`. -/
def relu (x : ℝ) : ℝ := max x 0

/-- `nn.Linear(dIn, dOut, bias=False)`: `y = x Wᵀ` with `w : (dOut, dIn)`. -/
def linearNoBias {dIn dOut : ℕ} (w : Fin dOut → Fin dIn → ℝ)
    (x : Fin dIn → ℝ) (o : Fin dOut) : ℝ :=
  ∑ d, w o d * x d

/-- `nn.Linear(dIn, dOut)`: `y = x Wᵀ + b`. -/
def linear {dIn dOut : ℕ} (w : Fin dOut → Fin dIn → ℝ) (b : Fin dOut → ℝ)
    (x : Fin dIn → ℝ) (o : Fin dOut) : ℝ :=
  (∑ d, w o d * x d) + b o

/-- `F.softmax` along a row of finite real scores. -/
noncomputable def softmaxRow {n : ℕ} (x : Fin n → ℝ) (j : Fin n) : ℝ :=
  Real.exp (x j) / ∑ k, Real.exp (x k)

/-- `exp` extended to masked scores: `exp (-inf) = 0`. -/
noncomputable def expOrZero : Option ℝ → ℝ
  | none => 0
  | some x => Real.exp x

/-- `F.softmax` along a row whose masked entries are `-inf` (`none`). -/
noncomputable def softmaxMaskedRow {n : ℕ} (x : Fin n → Option ℝ) (j : Fin n) : ℝ :=
  expOrZero (x j) / ∑ k, expOrZero (x k)

/-- The `tril` buffer of `AttentionHead.__init__`
(`torch.tril(torch.ones(max_length, max_length))`), already sliced to `T×T`. -/
def tril (T : ℕ) (i j : Fin T) : ℝ :=
  if j.val ≤ i.val then 1 else 0

/-- Parameters of `AttentionHead`: the three bias-free projection layers
(`project_to_key`, `project_to_query`, `project_to_value`). -/
structure AttentionHead (dimEmbed headSize maxLength : ℕ) where
  projectToKey : Fin headSize → Fin dimEmbed → ℝ
  projectToQuery : Fin headSize → Fin dimEmbed → ℝ
  projectToValue : Fin headSize → Fin dimEmbed → ℝ

variable {dimEmbed headSize maxLength B T : ℕ}

/-- `key = self.project_to_key(input)` in `AttentionHead.forward`. -/
def AttentionHead.key (h : AttentionHead dimEmbed headSize maxLength)
    (input : Fin B → Fin T → Fin dimEmbed → ℝ) (b : Fin B) (t : Fin T) :
    Fin headSize → ℝ :=
  linearNoBias h.projectToKey (input b t)

/-- `query = self.project_to_query(input)` in `AttentionHead.forward`. -/
def AttentionHead.query (h : AttentionHead dimEmbed headSize maxLength)
    (input : Fin B → Fin T → Fin dimEmbed → ℝ) (b : Fin B) (t : Fin T) :
    Fin headSize → ℝ :=
  linearNoBias h.projectToQuery (input b t)

/-- `value = self.project_to_value(input)` in `AttentionHead.forward`. -/
def AttentionHead.value (h : AttentionHead dimEmbed headSize maxLength)
    (input : Fin B → Fin T → Fin dimEmbed → ℝ) (b : Fin B) (t : Fin T) :
    Fin headSize → ℝ :=
  linearNoBias h.projectToValue (input b t)

/-- `weights = query @ key.transpose(-2, -1)` in `AttentionHead.forward`. -/
def AttentionHead.rawWeights (h : AttentionHead dimEmbed headSize maxLength)
    (input : Fin B → Fin T → Fin dimEmbed → ℝ) (b : Fin B) (i j : Fin T) : ℝ :=
  ∑ s, h.query input b i s * h.key input b j s

/-- `weights *= dim_embed ** -0.5` in `AttentionHead.forward`.  Note the
divisor uses the full embedding dimension read off `input.shape`, not the
head size. -/
noncomputable def AttentionHead.scaledWeights (h : AttentionHead dimEmbed headSize maxLength)
    (input : Fin B → Fin T → Fin dimEmbed → ℝ) (b : Fin B) (i j : Fin T) : ℝ :=
  h.rawWeights input b i j * ((dimEmbed : ℝ) ^ (-(1/2) : ℝ))

/-- `weights from masked_fill(self.tril[:T, :T] == 0, float('-inf'))`:
future positions become `-inf` (modelled as `none`). -/
noncomputable def AttentionHead.maskedWeights (h : AttentionHead dimEmbed headSize maxLength)
    (input : Fin B → Fin T → Fin dimEmbed → ℝ) (b : Fin B) (i j : Fin T) : Option ℝ :=
  if tril T i j = 0 then none else some (h.scaledWeights input b i j)

/-- `weights = F.softmax(weights, dim=-1)` in `AttentionHead.forward`:
the attention weight matrix computed inside the forward pass. -/
noncomputable def AttentionHead.attnWeights (h : AttentionHead dimEmbed headSize maxLength)
    (input : Fin B → Fin T → Fin dimEmbed → ℝ) (b : Fin B) (i j : Fin T) : ℝ :=
  softmaxMaskedRow (fun k => h.maskedWeights input b i k) j

/-- `AttentionHead.forward`: `output = weights @ value`. -/
noncomputable def AttentionHead.forward (h : AttentionHead dimEmbed headSize maxLength)
    (input : Fin B → Fin T → Fin dimEmbed → ℝ) (b : Fin B) (t : Fin T)
    (s : Fin headSize) : ℝ :=
  ∑ j, h.attnWeights input b t j * h.value input b j s

/-- Parameters of `MultiHeadAttention`: `num_heads` attention heads and the
final projection `nn.Linear(head_size * num_heads, dim_embed)`. -/
structure MultiHeadAttention (dimEmbed numHeads headSize maxLength : ℕ) where
  heads : Fin numHeads → AttentionHead dimEmbed headSize maxLength
  projectW : Fin dimEmbed → Fin (numHeads * headSize) → ℝ
  projectB : Fin dimEmbed → ℝ

variable {numHeads : ℕ}

/-- `torch.cat([head(input) for head in self.heads], dim=-1)`: feature `k`
of the concatenation comes from head `k / headSize`, feature `k % headSize`. -/
noncomputable def MultiHeadAttention.concatHeads
    (m : MultiHeadAttention dimEmbed numHeads headSize maxLength)
    (input : Fin B → Fin T → Fin dimEmbed → ℝ) (b : Fin B) (t : Fin T)
    (k : Fin (numHeads * headSize)) : ℝ :=
  (m.heads ⟨k.val / headSize, by
      have hk := k.isLt
      have hs : 0 < headSize := by
        rcases Nat.eq_zero_or_pos headSize with h | h
        · subst h; simp at hk
        · exact h
      exact (Nat.div_lt_iff_lt_mul hs).mpr hk⟩).forward input b t
    ⟨k.val % headSize, by
      have hk := k.isLt
      have hs : 0 < headSize := by
        rcases Nat.eq_zero_or_pos headSize with h | h
        · subst h; simp at hk
        · exact h
      exact Nat.mod_lt _ hs⟩

/-- `MultiHeadAttention.forward`: concatenate the heads, then project. -/
noncomputable def MultiHeadAttention.forward
    (m : MultiHeadAttention dimEmbed numHeads headSize maxLength)
    (input : Fin B → Fin T → Fin dimEmbed → ℝ) (b : Fin B) (t : Fin T) :
    Fin dimEmbed → ℝ :=
  linear m.projectW m.projectB (m.concatHeads input b t)

/-- Parameters of `FeedForward`: `Linear(dim, 4*dim)`, ReLU, `Linear(4*dim, dim)`. -/
structure FeedForward (dimEmbed : ℕ) where
  w1 : Fin (4 * dimEmbed) → Fin dimEmbed → ℝ
  b1 : Fin (4 * dimEmbed) → ℝ
  w2 : Fin dimEmbed → Fin (4 * dimEmbed) → ℝ
  b2 : Fin dimEmbed → ℝ

/-- `FeedForward.forward` on one position vector. -/
def FeedForward.forward (f : FeedForward dimEmbed) (x : Fin dimEmbed → ℝ) :
    Fin dimEmbed → ℝ :=
  linear f.w2 f.b2 (fun h => relu (linear f.w1 f.b1 x h))

/-- Parameters of `nn.LayerNorm(dim)` (elementwise affine). -/
structure LayerNormP (dim : ℕ) where
  weight : Fin dim → ℝ
  bias : Fin dim → ℝ

/-- `nn.LayerNorm` forward on one position vector, with PyTorch's default
`eps = 1e-5` and biased variance. -/
noncomputable def LayerNormP.forward {dim : ℕ} (p : LayerNormP dim)
    (x : Fin dim → ℝ) (i : Fin dim) : ℝ :=
  let mu := (∑ j, x j) / dim
  let variance := (∑ j, (x j - mu) ^ 2) / dim
  (x i - mu) / Real.sqrt (variance + 1 / 100000) * p.weight i + p.bias i

/-- Parameters of `TranformerBlock` (name kept from the source, typo included).
`headSize` is stored as a value so that the `head_size = dim_embed // num_heads`
computation of `__init__` is observable. -/
structure TranformerBlock (dimEmbed numHeads maxLength : ℕ) where
  headSize : ℕ
  multiHeadAttention : MultiHeadAttention dimEmbed numHeads headSize maxLength
  feedForward : FeedForward dimEmbed
  layerNorm1 : LayerNormP dimEmbed
  layerNorm2 : LayerNormP dimEmbed

/-- `TranformerBlock.forward`: two pre-normalized residual streams. -/
noncomputable def TranformerBlock.forward
    (blk : TranformerBlock dimEmbed numHeads maxLength)
    (input : Fin B → Fin T → Fin dimEmbed → ℝ) :
    Fin B → Fin T → Fin dimEmbed → ℝ :=
  let out1 : Fin B → Fin T → Fin dimEmbed → ℝ := fun b t d =>
    input b t d +
      blk.multiHeadAttention.forward (fun b' t' => blk.layerNorm1.forward (input b' t')) b t d
  fun b t d => out1 b t d + blk.feedForward.forward (blk.layerNorm2.forward (out1 b t)) d

/-- The error Python raises when `head_size = dim_embed // num_heads` divides
by `num_heads = 0`. -/
def zeroDivisionErrorMessage : String :=
  "ZeroDivisionError: integer division or modulo by zero"

/-- `TranformerBlock.__init__`: computes `head_size = dim_embed // num_heads`
and assembles the sub-modules.  Python's `//` raises `ZeroDivisionError` when
`num_heads = 0`; for every other `num_heads` the body performs no validation
of `dim_embed % num_heads` and floors the division.  The `w*`/`b*` arguments
supply the randomly initialised weights of the `nn.Linear` layers;
`nn.LayerNorm` initialises its weight to 1 and bias to 0. -/
def TranformerBlock.init (dimEmbed numHeads maxLength : ℕ)
    (wk wq wv : ℕ → ℕ → ℕ → ℝ) (wp : ℕ → ℕ → ℝ) (bp : ℕ → ℝ)
    (w1 : ℕ → ℕ → ℝ) (b1 : ℕ → ℝ) (w2 : ℕ → ℕ → ℝ) (b2 : ℕ → ℝ) :
    Except String (TranformerBlock dimEmbed numHeads maxLength) :=
  if numHeads = 0 then .error zeroDivisionErrorMessage else .ok
  { headSize := dimEmbed / numHeads
    multiHeadAttention :=
      { heads := fun i =>
          { projectToKey := fun o d => wk i.val o.val d.val
            projectToQuery := fun o d => wq i.val o.val d.val
            projectToValue := fun o d => wv i.val o.val d.val }
        projectW := fun o d => wp o.val d.val
        projectB := fun o => bp o.val }
    feedForward :=
      { w1 := fun o d => w1 o.val d.val
        b1 := fun o => b1 o.val
        w2 := fun o d => w2 o.val d.val
        b2 := fun o => b2 o.val }
    layerNorm1 := { weight := fun _ => 1, bias := fun _ => 0 }
    layerNorm2 := { weight := fun _ => 1, bias := fun _ => 0 } }

/-- Parameters of `TutorialLLM`: embedding tables, the block stack, the final
layer norm and the vocabulary projection. -/
structure TutorialLLM (vocabularySize dimEmbed maxLength numHeads : ℕ) where
  tokenEmbeddingTable : Fin vocabularySize → Fin dimEmbed → ℝ
  positionEmbeddingTable : Fin maxLength → Fin dimEmbed → ℝ
  transformerBlocks : List (TranformerBlock dimEmbed numHeads maxLength)
  layerNormFinal : LayerNormP dimEmbed
  projectW : Fin vocabularySize → Fin dimEmbed → ℝ
  projectB : Fin vocabularySize → ℝ

variable {vocabularySize : ℕ}

/-- The logits computed by `TutorialLLM.forward` before any flattening:
token embedding + position embedding, the block stack (`nn.Sequential`,
i.e. a left fold), the final layer norm, and the projection to vocabulary
space.  `hT : T ≤ maxLength` is the implicit precondition of the position
embedding lookup `position_embedding_table(torch.arange(T))`. -/
noncomputable def TutorialLLM.logitsFn
    (m : TutorialLLM vocabularySize dimEmbed maxLength numHeads)
    (hT : T ≤ maxLength) (tokenIds : Fin B → Fin T → Fin vocabularySize) :
    Fin B → Fin T → Fin vocabularySize → ℝ :=
  let embedding : Fin B → Fin T → Fin dimEmbed → ℝ := fun b t d =>
    m.tokenEmbeddingTable (tokenIds b t) d +
      m.positionEmbeddingTable ⟨t.val, lt_of_lt_of_le t.isLt hT⟩ d
  let h := m.transformerBlocks.foldl (fun acc blk => blk.forward acc) embedding
  fun b t => linear m.projectW m.projectB (m.layerNormFinal.forward (h b t))

/-- `F.cross_entropy` on a single row of logits against a class index:
`log (∑ v, exp (z v)) - z y`. -/
noncomputable def crossEntropy {V : ℕ} (z : Fin V → ℝ) (y : Fin V) : ℝ :=
  Real.log (∑ v, Real.exp (z v)) - z y

/-- The per-element cross-entropy losses of `TutorialLLM.forward` after the
`view(B*T, ...)` flattening: element `n` corresponds to batch row `n / T`,
position `n % T` (row-major). -/
noncomputable def TutorialLLM.lossVec
    (m : TutorialLLM vocabularySize dimEmbed maxLength numHeads)
    (hT : T ≤ maxLength) (tokenIds labels : Fin B → Fin T → Fin vocabularySize)
    (n : Fin (B * T)) : ℝ :=
  let b : Fin B := ⟨n.val / T, by
    have hn := n.isLt
    have ht : 0 < T := by
      rcases Nat.eq_zero_or_pos T with h | h
      · subst h; simp at hn
      · exact h
    exact (Nat.div_lt_iff_lt_mul ht).mpr hn⟩
  let t : Fin T := ⟨n.val % T, by
    have hn := n.isLt
    have ht : 0 < T := by
      rcases Nat.eq_zero_or_pos T with h | h
      · subst h; simp at hn
      · exact h
    exact Nat.mod_lt _ ht⟩
  crossEntropy (m.logitsFn hT tokenIds b t) (labels b t)

/-- `TutorialLLM.forward`.  Returns the logits tensor and the optional loss.
When `labels` is provided the source reassigns
`logits = logits.view(B * T, vocabulary_size)` and returns that flattened
tensor; the loss is `F.cross_entropy(logits, labels, reduce=reduce_loss)`,
i.e. the mean over all `B*T` elements when `reduceLoss` and the length-`B*T`
vector of per-element losses otherwise. -/
noncomputable def TutorialLLM.forward
    (m : TutorialLLM vocabularySize dimEmbed maxLength numHeads)
    (hT : T ≤ maxLength) (tokenIds : Fin B → Fin T → Fin vocabularySize)
    (labels : Option (Fin B → Fin T → Fin vocabularySize))
    (reduceLoss : Bool) : STensor × Option STensor :=
  let logits := m.logitsFn hT tokenIds
  match labels with
  | none => (tensor3 B T vocabularySize logits, none)
  | some lab =>
      let losses := m.lossVec hT tokenIds lab
      ((tensor3 B T vocabularySize logits).view [B * T, vocabularySize],
       some (if reduceLoss then ⟨[], [(∑ n, losses n) / ((B * T : ℕ) : ℝ)]⟩
             else tensor1 (B * T) losses))

/-- The running sequence batch inside `TutorialLLM.generate`: `len` tokens per
row (`torch.cat` keeps all rows the same length). -/
structure GenState (B V : ℕ) where
  len : ℕ
  toks : Fin B → Fin len → Fin V

/-- `token_ids = torch.cat((token_ids, idx_next), dim=1)`. -/
def appendTok {B V len : ℕ} (toks : Fin B → Fin len → Fin V)
    (nxt : Fin B → Fin V) : Fin B → Fin (len + 1) → Fin V :=
  fun b t => if h : t.val < len then toks b ⟨t.val, h⟩ else nxt b

/-- `token_ids[:, -self.max_length:]`: the last `min len maxLength` tokens. -/
def cropContext {B V : ℕ} (maxLength : ℕ) {len : ℕ}
    (toks : Fin B → Fin len → Fin V) :
    Fin B → Fin (min len maxLength) → Fin V :=
  fun b t => toks b ⟨len - min len maxLength + t.val, by
    have h1 := min_le_left len maxLength
    have h2 := t.isLt
    omega⟩

/-- The error message `torch.Tensor.item` raises on a tensor that does not
hold exactly one element. -/
def itemErrorMessage : String :=
  "only one element tensors can be converted to Python scalars"

/-- `torch.Tensor.item()` on the `(B, 1)` tensor of sampled tokens: succeeds
only when the batch holds exactly one sequence. -/
def item {B V : ℕ} (x : Fin B → Fin V) : Except String (Fin V) :=
  if h : B = 1 then .ok (x ⟨0, by omega⟩) else .error itemErrorMessage

/-- A sampling oracle standing for `torch.multinomial(probs, num_samples=1)`:
given the remaining fuel (identifying the step) and the probability rows, it
returns one token per row.  Quantifying over all samplers covers every
possible random draw. -/
def Sampler (B V : Type) : Type :=
  ℕ → (B → V → ℝ) → B → V

/-- One loop of `TutorialLLM.generate`, recursing on the remaining number of
new tokens: crop the context window, run the forward pass without labels, take
the last position's logits, softmax, sample, append, then stop if `.item()`
says the sampled token id is 0 (`.item()` raises unless `B = 1`). -/
noncomputable def TutorialLLM.generateAux
    (m : TutorialLLM vocabularySize dimEmbed maxLength numHeads) {B : ℕ}
    (sampler : Sampler (Fin B) (Fin vocabularySize)) (hmL : 0 < maxLength) :
    (fuel : ℕ) → (st : GenState B vocabularySize) → 0 < st.len →
      Except String (GenState B vocabularySize)
  | 0, st, _ => .ok st
  | fuel + 1, st, hlen =>
      let cropped := cropContext maxLength st.toks
      let logits := m.logitsFn (min_le_right st.len maxLength) cropped
      let probs : Fin B → Fin vocabularySize → ℝ := fun b =>
        softmaxRow (logits b ⟨min st.len maxLength - 1,
          Nat.sub_lt (lt_min hlen hmL) Nat.one_pos⟩)
      let nxt := sampler fuel probs
      let st' : GenState B vocabularySize := ⟨st.len + 1, appendTok st.toks nxt⟩
      match item nxt with
      | .error e => .error e
      | .ok tok =>
          if tok.val = 0 then .ok st'
          else m.generateAux sampler hmL fuel st' (Nat.succ_pos st.len)

/-- `TutorialLLM.generate`: run up to `maxNewTokens` sampling steps starting
from the prompt.  `hmL`/`hT` record that the model has a positive context
window and the prompt is nonempty; without them the source raises an index
error on `logits[:, -1, :]`. -/
noncomputable def TutorialLLM.generate
    (m : TutorialLLM vocabularySize dimEmbed maxLength numHeads) {B T : ℕ}
    (sampler : Sampler (Fin B) (Fin vocabularySize)) (hmL : 0 < maxLength)
    (hT : 0 < T) (tokenIds : Fin B → Fin T → Fin vocabularySize)
    (maxNewTokens : ℕ) : Except String (GenState B vocabularySize) :=
  m.generateAux sampler hmL maxNewTokens ⟨T, tokenIds⟩ hT

/-- The tokens of one row of a generation state, as a list. -/
def GenState.toList {B V : ℕ} (st : GenState B V) (b : Fin B) : List (Fin V) :=
  (List.finRange st.len).map (st.toks b)

/-- `DpoWrapper`: the trainable aligned model, the hyperparameters, the
derived `negative_weight`, and the frozen deep-copied reference model. -/
structure DpoWrapper (vocabularySize dimEmbed maxLength numHeads : ℕ) where
  alignedModel : TutorialLLM vocabularySize dimEmbed maxLength numHeads
  beta : ℝ
  positiveWeight : ℝ
  negativeWeight : ℝ
  referenceModel : TutorialLLM vocabularySize dimEmbed maxLength numHeads

/-- `DpoWrapper.__init__`: stores the model and hyperparameters, sets
`negative_weight = 1 - positive_weight`, and deep-copies the model into the
reference model (in a pure embedding the copy is the same value).  The source
performs no validation of `positive_weight`. -/
def DpoWrapper.init (model : TutorialLLM vocabularySize dimEmbed maxLength numHeads)
    (beta positiveWeight : ℝ) : DpoWrapper vocabularySize dimEmbed maxLength numHeads :=
  ⟨model, beta, positiveWeight, 1 - positiveWeight, model⟩

/-- `F.logsigmoid`. -/
noncomputable def logsigmoid (x : ℝ) : ℝ :=
  Real.log (1 / (1 + Real.exp (-x)))

/-- `torch.Tensor.mean()` of a `Fin`-indexed vector. -/
noncomputable def meanFin {n : ℕ} (f : Fin n → ℝ) : ℝ :=
  (∑ i, f i) / n

/-- The four unreduced loss tensors computed at the start of
`DpoWrapper.forward` (lines 350-355 of the source): aligned model on the
positive and negative pairs, reference model on the positive and negative
pairs, each via `TutorialLLM.forward` with `reduce_loss=False`. -/
noncomputable def DpoWrapper.lossVectors
    (w : DpoWrapper vocabularySize dimEmbed maxLength numHeads)
    (hT : T ≤ maxLength)
    (positiveTokenIds positiveLabels negativeTokenIds negativeLabels :
      Fin B → Fin T → Fin vocabularySize) :
    Option STensor × Option STensor × Option STensor × Option STensor :=
  ((w.alignedModel.forward hT positiveTokenIds (some positiveLabels) false).2,
   (w.alignedModel.forward hT negativeTokenIds (some negativeLabels) false).2,
   (w.referenceModel.forward hT positiveTokenIds (some positiveLabels) false).2,
   (w.referenceModel.forward hT negativeTokenIds (some negativeLabels) false).2)

/-- `DpoWrapper.forward`: combines the four per-element loss vectors into the
DPO loss and the mean reward margin.  The loss vectors are used through
`TutorialLLM.lossVec`, which is exactly the data of the tensors returned by
`TutorialLLM.forward` with `reduce_loss=False`. -/
noncomputable def DpoWrapper.forward
    (w : DpoWrapper vocabularySize dimEmbed maxLength numHeads)
    (hT : T ≤ maxLength)
    (positiveTokenIds positiveLabels negativeTokenIds negativeLabels :
      Fin B → Fin T → Fin vocabularySize) : ℝ × ℝ :=
  let positiveLoss := w.alignedModel.lossVec hT positiveTokenIds positiveLabels
  let negativeLoss := w.alignedModel.lossVec hT negativeTokenIds negativeLabels
  let referencePositiveLoss := w.referenceModel.lossVec hT positiveTokenIds positiveLabels
  let referenceNegativeLoss := w.referenceModel.lossVec hT negativeTokenIds negativeLabels
  let positiveReward := fun n => referencePositiveLoss n - positiveLoss n
  let negativeReward := fun n => negativeLoss n - referenceNegativeLoss n
  let rewardMargin := fun n =>
    w.positiveWeight * positiveReward n + w.negativeWeight * negativeReward n
  (-(meanFin (fun n => logsigmoid (w.beta * rewardMargin n))), meanFin rewardMargin)

/-! ### Concrete instances used to exercise the theorems -/

/-- A single attention head over embedding dimension 4 with head size 1. -/
def onesHead : AttentionHead 4 1 4 :=
  ⟨fun _ _ => 1, fun _ _ => 1, fun _ _ => 1⟩

/-- A batch of one sequence of two all-ones embedding vectors. -/
def onesInput : Fin 1 → Fin 2 → Fin 4 → ℝ := fun _ _ _ => 1

/-- A `TutorialLLM` with zero blocks and all-zero parameters, of arbitrary
dimensions; enough to exercise the shape and arithmetic contracts. -/
def zeroModel (vocabularySize dimEmbed maxLength numHeads : ℕ) :
    TutorialLLM vocabularySize dimEmbed maxLength numHeads :=
  { tokenEmbeddingTable := fun _ _ => 0
    positionEmbeddingTable := fun _ _ => 0
    transformerBlocks := []
    layerNormFinal := { weight := fun _ => 0, bias := fun _ => 0 }
    projectW := fun _ _ => 0
    projectB := fun _ => 0 }

/-! ### C1: causality and normalization of the attention weights -/

/-- The masked score is present exactly on the non-future positions. -/
theorem maskedWeights_eq_ite (h : AttentionHead dimEmbed headSize maxLength)
    (input : Fin B → Fin T → Fin dimEmbed → ℝ) (b : Fin B) (i j : Fin T) :
    h.maskedWeights input b i j =
      if j.val ≤ i.val then some (h.scaledWeights input b i j) else none := by
  by_cases hj : j.val ≤ i.val <;>
    simp [AttentionHead.maskedWeights, tril, hj]

/-- C1: for every input of shape `(B, T, dimEmbed)` with `T ≤ maxLength`, the
attention weight matrix computed inside `AttentionHead.forward` is zero at
every key position `j > i`, and for each query position `i` the weights over
the positions `j ≤ i` sum to 1. -/
theorem attnWeights_causal (h : AttentionHead dimEmbed headSize maxLength)
    (hT : T ≤ maxLength) (input : Fin B → Fin T → Fin dimEmbed → ℝ)
    (b : Fin B) (i : Fin T) :
    (∀ j : Fin T, i.val < j.val → h.attnWeights input b i j = 0) ∧
    ∑ j ∈ Finset.univ.filter (fun j : Fin T => j.val ≤ i.val),
        h.attnWeights input b i j = 1 := by
  have hmask : ∀ j : Fin T, expOrZero (h.maskedWeights input b i j) =
      if j.val ≤ i.val then Real.exp (h.scaledWeights input b i j) else 0 := by
    intro j
    by_cases hj : j.val ≤ i.val <;>
      simp [maskedWeights_eq_ite, hj, expOrZero]
  have hD : ∑ k, expOrZero (h.maskedWeights input b i k) =
      ∑ k ∈ Finset.univ.filter (fun k : Fin T => k.val ≤ i.val),
        Real.exp (h.scaledWeights input b i k) := by
    rw [Finset.sum_filter]
    exact Finset.sum_congr rfl fun k _ => hmask k
  have hDpos : 0 < ∑ k, expOrZero (h.maskedWeights input b i k) := by
    refine Finset.sum_pos' (fun k _ => ?_) ⟨i, Finset.mem_univ _, ?_⟩
    · rw [hmask k]
      by_cases hk : k.val ≤ i.val
      · rw [if_pos hk]; exact (Real.exp_pos _).le
      · rw [if_neg hk]
    · rw [hmask i, if_pos (le_refl i.val)]
      exact Real.exp_pos _
  constructor
  · intro j hij
    unfold AttentionHead.attnWeights softmaxMaskedRow
    rw [hmask j, if_neg (by omega)]
    exact zero_div _
  · unfold AttentionHead.attnWeights softmaxMaskedRow
    rw [← Finset.sum_div]
    rw [Finset.sum_congr rfl fun j hj =>
      (hmask j).trans (if_pos (Finset.mem_filter.mp hj).2)]
    rw [← hD, div_self hDpos.ne']

/-- Witness for C1 at a concrete head, input and query position. -/
theorem attnWeights_causal_witness :
    (2 ≤ 4) ∧
    ((∀ j : Fin 2, (0 : Fin 2).val < j.val → onesHead.attnWeights onesInput 0 0 j = 0) ∧
     ∑ j ∈ Finset.univ.filter (fun j : Fin 2 => j.val ≤ (0 : Fin 2).val),
         onesHead.attnWeights onesInput 0 0 j = 1) :=
  ⟨by decide, attnWeights_causal onesHead (by decide) onesInput 0 0⟩

/-! ### C7: the affinity scores are scaled by `1/sqrt(dim_embed)` -/

/-- `x ** -0.5` in the source is `1 / sqrt x`. -/
theorem rpow_neg_half_eq_inv_sqrt (d : ℕ) :
    ((d : ℝ) ^ (-(1/2) : ℝ)) = (Real.sqrt d)⁻¹ := by
  rw [Real.rpow_neg (by positivity), Real.sqrt_eq_rpow]

/-- C7: inside `AttentionHead.forward` the raw affinity scores are multiplied
by `1/sqrt(dimEmbed)` — the full embedding dimension — and, whenever that
differs from `1/sqrt(headSize)` and the raw score is nonzero, the scaled score
is not the one the conventional per-head scaling would give. -/
theorem scaledWeights_uses_dimEmbed (h : AttentionHead dimEmbed headSize maxLength)
    (input : Fin B → Fin T → Fin dimEmbed → ℝ) (b : Fin B) (i j : Fin T) :
    h.scaledWeights input b i j =
      h.rawWeights input b i j * (Real.sqrt dimEmbed)⁻¹ ∧
    (h.rawWeights input b i j ≠ 0 →
      (Real.sqrt headSize)⁻¹ ≠ (Real.sqrt dimEmbed)⁻¹ →
      h.scaledWeights input b i j ≠
        h.rawWeights input b i j * (Real.sqrt headSize)⁻¹) := by
  have heq : h.scaledWeights input b i j =
      h.rawWeights input b i j * (Real.sqrt dimEmbed)⁻¹ := by
    unfold AttentionHead.scaledWeights
    rw [rpow_neg_half_eq_inv_sqrt]
  refine ⟨heq, fun hraw hne hcon => hne ?_⟩
  exact (mul_left_cancel₀ hraw ((heq.symm.trans hcon))).symm

/-- Witness for C7: a head of size 1 over embedding dimension 4 where the raw
score is 16; the conventional `1/sqrt(head_size)` scaling would differ. -/
theorem scaledWeights_uses_dimEmbed_witness :
    onesHead.rawWeights onesInput 0 0 1 ≠ 0 ∧
    (Real.sqrt ((1 : ℕ) : ℝ))⁻¹ ≠ (Real.sqrt ((4 : ℕ) : ℝ))⁻¹ ∧
    onesHead.scaledWeights onesInput 0 0 1 ≠
      onesHead.rawWeights onesInput 0 0 1 * (Real.sqrt ((1 : ℕ) : ℝ))⁻¹ := by
  have hraw : onesHead.rawWeights onesInput 0 0 1 = 16 := by
    simp [AttentionHead.rawWeights, AttentionHead.query, AttentionHead.key,
      linearNoBias, onesHead, onesInput, Fin.sum_univ_succ]
    norm_num
  have h4 : Real.sqrt ((4 : ℕ) : ℝ) = 2 := by
    rw [show ((4 : ℕ) : ℝ) = 2 ^ 2 by norm_num,
      Real.sqrt_sq (by norm_num : (0 : ℝ) ≤ 2)]
  have h1 : Real.sqrt ((1 : ℕ) : ℝ) = 1 := by
    rw [show ((1 : ℕ) : ℝ) = 1 by norm_num, Real.sqrt_one]
  have hne : (Real.sqrt ((1 : ℕ) : ℝ))⁻¹ ≠ (Real.sqrt ((4 : ℕ) : ℝ))⁻¹ := by
    rw [h1, h4]; norm_num
  exact ⟨by rw [hraw]; norm_num, hne,
    (scaledWeights_uses_dimEmbed onesHead onesInput 0 0 1).2
      (by rw [hraw]; norm_num) hne⟩

/-! ### More concrete instances -/

/-- A minimal model: vocabulary 1, embedding 1, context 1, one head, no blocks. -/
def zModel : TutorialLLM 1 1 1 1 := zeroModel 1 1 1 1

/-- The all-zero 1×1 token batch. -/
def zTok : Fin 1 → Fin 1 → Fin 1 := fun _ _ => 0

/-- A zero model with vocabulary 2 and context length 3. -/
def model232 : TutorialLLM 2 1 3 1 := zeroModel 2 1 3 1

/-- An all-zero token batch of 2 sequences of length 3. -/
def idsB23 : Fin 2 → Fin 3 → Fin 2 := fun _ _ => 0

/-- A DPO wrapper around `model232`. -/
def dpo232 : DpoWrapper 2 1 3 1 := DpoWrapper.init model232 1 1

/-! ### C2: the DPO loss formula -/

/-- C2: `DpoWrapper.forward` computes
`positive_reward = reference_positive_loss - aligned_positive_loss`,
`negative_reward = aligned_negative_loss - reference_negative_loss`,
`reward_margin = positive_weight * positive_reward + (1 - positive_weight) * negative_reward`
(the stored `negative_weight` is `1 - positive_weight`, as `__init__` sets it),
and returns `(-mean (logsigmoid (beta * reward_margin)), mean reward_margin)`. -/
theorem dpoForward_formula
    (alignedModel referenceModel : TutorialLLM vocabularySize dimEmbed maxLength numHeads)
    (beta positiveWeight : ℝ) (hT : T ≤ maxLength)
    (pIds pLab nIds nLab : Fin B → Fin T → Fin vocabularySize) :
    (DpoWrapper.mk alignedModel beta positiveWeight (1 - positiveWeight)
        referenceModel).forward hT pIds pLab nIds nLab =
      (-(meanFin (fun k => logsigmoid (beta *
          (positiveWeight *
             (referenceModel.lossVec hT pIds pLab k - alignedModel.lossVec hT pIds pLab k) +
           (1 - positiveWeight) *
             (alignedModel.lossVec hT nIds nLab k - referenceModel.lossVec hT nIds nLab k))))),
       meanFin (fun k =>
          positiveWeight *
            (referenceModel.lossVec hT pIds pLab k - alignedModel.lossVec hT pIds pLab k) +
          (1 - positiveWeight) *
            (alignedModel.lossVec hT nIds nLab k - referenceModel.lossVec hT nIds nLab k))) ∧
    DpoWrapper.init alignedModel beta positiveWeight =
      ⟨alignedModel, beta, positiveWeight, 1 - positiveWeight, alignedModel⟩ :=
  ⟨rfl, rfl⟩

/-- Witness for C2 at a concrete wrapper and batch. -/
theorem dpoForward_formula_witness :
    (1 ≤ 1) ∧
    (DpoWrapper.mk zModel 1 1 (1 - 1) zModel).forward (le_refl 1) zTok zTok zTok zTok =
      (-(meanFin (fun k => logsigmoid ((1 : ℝ) *
          ((1 : ℝ) * (zModel.lossVec (le_refl 1) zTok zTok k -
              zModel.lossVec (le_refl 1) zTok zTok k) +
           (1 - 1) * (zModel.lossVec (le_refl 1) zTok zTok k -
              zModel.lossVec (le_refl 1) zTok zTok k))))),
       meanFin (fun k =>
          (1 : ℝ) * (zModel.lossVec (le_refl 1) zTok zTok k -
              zModel.lossVec (le_refl 1) zTok zTok k) +
          (1 - 1) * (zModel.lossVec (le_refl 1) zTok zTok k -
              zModel.lossVec (le_refl 1) zTok zTok k))) :=
  ⟨le_refl 1,
   (dpoForward_formula zModel zModel 1 1 (le_refl 1) zTok zTok zTok zTok).1⟩

/-! ### C9: construction performs no validation -/

/-- C9 (amended): neither of the two constructions validates its
configuration.  For any nonzero `num_heads`, `TranformerBlock.__init__`
succeeds — even when `dim_embed` is not divisible by `num_heads` — computing
`head_size = dim_embed // num_heads` by floor division (only `num_heads = 0`
fails, with the `ZeroDivisionError` of the division itself rather than a
configuration check), and `DpoWrapper.__init__` accepts any `positive_weight`,
storing `negative_weight = 1 - positive_weight` and the deep copy of the
model, without validating the range. -/
theorem init_no_validation (dE nH mL : ℕ) (hnH : nH ≠ 0)
    (wk wq wv : ℕ → ℕ → ℕ → ℝ)
    (wp : ℕ → ℕ → ℝ) (bp : ℕ → ℝ) (w1 : ℕ → ℕ → ℝ) (b1 : ℕ → ℝ)
    (w2 : ℕ → ℕ → ℝ) (b2 : ℕ → ℝ)
    (model : TutorialLLM vocabularySize dimEmbed maxLength numHeads)
    (beta positiveWeight : ℝ) :
    (∃ blk, TranformerBlock.init dE nH mL wk wq wv wp bp w1 b1 w2 b2 = .ok blk ∧
        blk.headSize = dE / nH) ∧
    TranformerBlock.init dE 0 mL wk wq wv wp bp w1 b1 w2 b2 =
      .error zeroDivisionErrorMessage ∧
    (DpoWrapper.init model beta positiveWeight).negativeWeight = 1 - positiveWeight ∧
    (DpoWrapper.init model beta positiveWeight).alignedModel = model ∧
    (DpoWrapper.init model beta positiveWeight).referenceModel = model := by
  refine ⟨?_, rfl, rfl, rfl, rfl⟩
  unfold TranformerBlock.init
  rw [if_neg hnH]
  exact ⟨_, rfl, rfl⟩

/-- Witness for C9's amended theorem at a concrete configuration. -/
theorem init_no_validation_witness :
    ((2 : ℕ) ≠ 0) ∧
    ∃ blk, TranformerBlock.init 5 2 4 (fun _ _ _ => 0) (fun _ _ _ => 0)
        (fun _ _ _ => 0) (fun _ _ => 0) (fun _ => 0) (fun _ _ => 0) (fun _ => 0)
        (fun _ _ => 0) (fun _ => 0) = .ok blk ∧
      blk.headSize = 5 / 2 :=
  ⟨by decide,
   (init_no_validation 5 2 4 (by decide) (fun _ _ _ => 0) (fun _ _ _ => 0)
     (fun _ _ _ => 0) (fun _ _ => 0) (fun _ => 0) (fun _ _ => 0) (fun _ => 0)
     (fun _ _ => 0) (fun _ => 0) zModel 1 1).1⟩

/-- Counterexample for C9 as stated: with `dim_embed = 5` not divisible by
`num_heads = 2` the block still constructs successfully (with floored head
size 2), and with `positive_weight = 3/2 ∉ [0,1]` the DPO wrapper still
constructs (with the inverted `negative_weight = -1/2`); neither construction
signals a configuration error. -/
theorem init_no_validation_counterexample :
    ¬ (2 ∣ 5) ∧
    (TranformerBlock.init 5 2 4 (fun _ _ _ => 0) (fun _ _ _ => 0) (fun _ _ _ => 0)
        (fun _ _ => 0) (fun _ => 0) (fun _ _ => 0) (fun _ => 0) (fun _ _ => 0)
        (fun _ => 0)).toOption.map (fun blk => blk.headSize) = some 2 ∧
    ¬ ((3 : ℝ) / 2 ≤ 1) ∧
    (DpoWrapper.init zModel 1 (3 / 2)).negativeWeight = -(1 / 2) := by
  refine ⟨by decide, rfl, by norm_num, ?_⟩
  show (1 : ℝ) - 3 / 2 = -(1 / 2)
  norm_num

/-! ### C4: the shape of the returned logits -/

/-- C4 (amended): `TutorialLLM.forward` returns logits of shape
`(B, T, vocabularySize)` (and no loss) when no labels are supplied; when
labels are supplied the returned logits are the `view`-flattened tensor of
shape `(B*T, vocabularySize)`, together with a cross-entropy loss. -/
theorem forward_logits_shape
    (m : TutorialLLM vocabularySize dimEmbed maxLength numHeads)
    (hT : T ≤ maxLength) (tokenIds : Fin B → Fin T → Fin vocabularySize)
    (reduceLoss : Bool) :
    ((m.forward hT tokenIds none reduceLoss).1.shape = [B, T, vocabularySize] ∧
     (m.forward hT tokenIds none reduceLoss).2 = none) ∧
    ∀ labels,
      (m.forward hT tokenIds (some labels) reduceLoss).1.shape =
        [B * T, vocabularySize] ∧
      ∃ l, (m.forward hT tokenIds (some labels) reduceLoss).2 = some l :=
  ⟨⟨rfl, rfl⟩, fun _ => ⟨rfl, ⟨_, rfl⟩⟩⟩

/-- Witness for C4 at a concrete model and batch. -/
theorem forward_logits_shape_witness :
    (1 ≤ 1) ∧
    (zModel.forward (le_refl 1) zTok none true).1.shape = [1, 1, 1] ∧
    (zModel.forward (le_refl 1) zTok (some zTok) true).1.shape = [1 * 1, 1] :=
  ⟨le_refl 1, (forward_logits_shape zModel (le_refl 1) zTok true).1.1,
   ((forward_logits_shape zModel (le_refl 1) zTok true).2 zTok).1⟩

/-- Counterexample for C4 as stated: on a batch of 2 sequences of length 3
with vocabulary 2 and labels supplied, the returned logits have shape
`[6, 2]`, not `[2, 3, 2]`. -/
theorem forward_logits_shape_counterexample :
    (model232.forward (le_refl 3) idsB23 (some idsB23) true).1.shape = [6, 2] ∧
    (model232.forward (le_refl 3) idsB23 (some idsB23) true).1.shape ≠ [2, 3, 2] := by
  constructor
  · show ([2 * 3, 2] : List ℕ) = [6, 2]
    norm_num
  · show ([2 * 3, 2] : List ℕ) ≠ [2, 3, 2]
    decide

/-! ### C5: the four unreduced loss vectors of `DpoWrapper.forward` -/

/-- C5 (amended): the four loss tensors computed by `DpoWrapper.forward` are
per-element (per-token) loss vectors: each is present and holds `B * T`
values — one per token of the flattened batch — not one per sequence. -/
theorem dpo_lossVectors_shape
    (w : DpoWrapper vocabularySize dimEmbed maxLength numHeads)
    (hT : T ≤ maxLength)
    (pIds pLab nIds nLab : Fin B → Fin T → Fin vocabularySize) :
    ∃ t1 t2 t3 t4,
      w.lossVectors hT pIds pLab nIds nLab = (some t1, some t2, some t3, some t4) ∧
      t1.shape = [B * T] ∧ t1.data.length = B * T ∧
      t2.shape = [B * T] ∧ t2.data.length = B * T ∧
      t3.shape = [B * T] ∧ t3.data.length = B * T ∧
      t4.shape = [B * T] ∧ t4.data.length = B * T := by
  refine ⟨_, _, _, _, rfl, rfl, ?_, rfl, ?_, rfl, ?_, rfl, ?_⟩ <;>
    simp [tensor1]

/-- Witness for C5 at a concrete wrapper and batch. -/
theorem dpo_lossVectors_shape_witness :
    (1 ≤ 1) ∧
    ∃ t1 t2 t3 t4,
      (DpoWrapper.init zModel 1 1).lossVectors (le_refl 1) zTok zTok zTok zTok =
        (some t1, some t2, some t3, some t4) ∧
      t1.shape = [1 * 1] ∧ t1.data.length = 1 * 1 ∧
      t2.shape = [1 * 1] ∧ t2.data.length = 1 * 1 ∧
      t3.shape = [1 * 1] ∧ t3.data.length = 1 * 1 ∧
      t4.shape = [1 * 1] ∧ t4.data.length = 1 * 1 :=
  ⟨le_refl 1,
   dpo_lossVectors_shape (DpoWrapper.init zModel 1 1) (le_refl 1) zTok zTok zTok zTok⟩

/-- Counterexample for C5 as stated: with 2 sequences of length 3 the first
loss vector holds 6 values, not `B = 2`. -/
theorem dpo_lossVectors_shape_counterexample :
    Option.map (fun t => t.data.length)
        (dpo232.lossVectors (le_refl 3) idsB23 idsB23 idsB23 idsB23).1 = some 6 ∧
    Option.map (fun t => t.data.length)
        (dpo232.lossVectors (le_refl 3) idsB23 idsB23 idsB23 idsB23).1 ≠ some 2 := by
  have h : Option.map (fun t => t.data.length)
      (dpo232.lossVectors (le_refl 3) idsB23 idsB23 idsB23 idsB23).1 =
      some (((List.finRange (2 * 3)).map
        (model232.lossVec (le_refl 3) idsB23 idsB23)).length) := rfl
  rw [h]
  simp

/-! ### C6: reduced loss is the mean of the unreduced losses -/

/-- C6: for every token batch with matching labels, the loss returned by
`TutorialLLM.forward` with `reduce_loss=True` is the mean (sum divided by
count) of the per-element loss vector returned with `reduce_loss=False`. -/
theorem forward_reduce_mean
    (m : TutorialLLM vocabularySize dimEmbed maxLength numHeads)
    (hT : T ≤ maxLength) (tokenIds labels : Fin B → Fin T → Fin vocabularySize) :
    (m.forward hT tokenIds (some labels) true).2 =
      Option.map (fun u => STensor.mk [] [u.data.sum / (u.data.length : ℝ)])
        ((m.forward hT tokenIds (some labels) false).2) := by
  have hsum : (∑ n, m.lossVec hT tokenIds labels n) =
      ((List.finRange (B * T)).map (m.lossVec hT tokenIds labels)).sum :=
    Fin.sum_univ_def _
  have hlen : ((List.finRange (B * T)).map (m.lossVec hT tokenIds labels)).length =
      B * T := by simp
  show some (STensor.mk []
      [(∑ n, m.lossVec hT tokenIds labels n) / ((B * T : ℕ) : ℝ)]) =
    some (STensor.mk []
      [((List.finRange (B * T)).map (m.lossVec hT tokenIds labels)).sum /
        (((List.finRange (B * T)).map (m.lossVec hT tokenIds labels)).length : ℝ)])
  rw [hsum, hlen]

/-- Witness for C6 at a concrete model and batch. -/
theorem forward_reduce_mean_witness :
    (1 ≤ 1) ∧
    (zModel.forward (le_refl 1) zTok (some zTok) true).2 =
      Option.map (fun u => STensor.mk [] [u.data.sum / (u.data.length : ℝ)])
        ((zModel.forward (le_refl 1) zTok (some zTok) false).2) :=
  ⟨le_refl 1, forward_reduce_mean zModel (le_refl 1) zTok zTok⟩

/-! ### Generation: helper lemmas -/

/-- Appending the sampled token extends each row's token list by one. -/
theorem toList_appendTok {B V len : ℕ} (toks : Fin B → Fin len → Fin V)
    (nxt : Fin B → Fin V) (b : Fin B) :
    GenState.toList ⟨len + 1, appendTok toks nxt⟩ b =
      GenState.toList ⟨len, toks⟩ b ++ [nxt b] := by
  unfold GenState.toList
  rw [List.finRange_succ_last, List.map_append, List.map_map, List.map_singleton]
  congr 1
  · apply List.map_congr_left
    intro i _
    have hi : (Fin.castSucc i).val < len := i.isLt
    simp [appendTok, hi]
  · simp [appendTok, Fin.last]

/-- A generated suffix in which the sentinel token 0 can occur only as the
final token (generation halts immediately after producing it). -/
def SentinelOnlyLast {V : ℕ} (gen : List (Fin V)) : Prop :=
  ∀ i : Fin gen.length, (gen.get i).val = 0 → i.val + 1 = gen.length

theorem sentinelOnlyLast_nil {V : ℕ} : SentinelOnlyLast ([] : List (Fin V)) :=
  fun i => absurd i.isLt (by simp)

theorem sentinelOnlyLast_singleton {V : ℕ} (x : Fin V) :
    SentinelOnlyLast [x] := by
  intro i _
  have h := i.isLt
  simp only [List.length_singleton] at h ⊢
  omega

theorem sentinelOnlyLast_cons {V : ℕ} (x : Fin V) (l : List (Fin V))
    (hx : x.val ≠ 0) (hl : SentinelOnlyLast l) : SentinelOnlyLast (x :: l) := by
  intro i hi
  match i with
  | ⟨0, h⟩ => exact absurd hi hx
  | ⟨k + 1, h⟩ =>
      have hk : k < l.length := by simpa using h
      have h2 : k + 1 = l.length := hl ⟨k, hk⟩ (by simpa using hi)
      show k + 1 + 1 = (x :: l).length
      simp only [List.length_cons]
      omega

/-- Unfolds one iteration of `generateAux` in the single-sequence case, where
`item` succeeds and returns the sampled token. -/
theorem generateAux_succ_one
    (m : TutorialLLM vocabularySize dimEmbed maxLength numHeads)
    (sampler : Sampler (Fin 1) (Fin vocabularySize)) (hmL : 0 < maxLength)
    (fuel : ℕ) (st : GenState 1 vocabularySize) (hlen : 0 < st.len) :
    m.generateAux sampler hmL (fuel + 1) st hlen =
      (let nxt := sampler fuel (fun b =>
        softmaxRow ((m.logitsFn (min_le_right st.len maxLength)
          (cropContext maxLength st.toks)) b
            ⟨min st.len maxLength - 1, Nat.sub_lt (lt_min hlen hmL) Nat.one_pos⟩))
       let st' : GenState 1 vocabularySize := ⟨st.len + 1, appendTok st.toks nxt⟩
       if (nxt ⟨0, Nat.one_pos⟩).val = 0 then .ok st'
       else m.generateAux sampler hmL fuel st' (Nat.succ_pos st.len)) :=
  rfl

/-- Core induction for single-sequence generation: it always succeeds, the
result extends the starting state by an at-most-`fuel`-long generated suffix,
and the sentinel can only be the last generated token. -/
theorem generateAux_ok
    (m : TutorialLLM vocabularySize dimEmbed maxLength numHeads)
    (sampler : Sampler (Fin 1) (Fin vocabularySize)) (hmL : 0 < maxLength) :
    ∀ (fuel : ℕ) (st : GenState 1 vocabularySize) (hlen : 0 < st.len),
      ∃ (res : GenState 1 vocabularySize) (gen : List (Fin vocabularySize)),
        m.generateAux sampler hmL fuel st hlen = .ok res ∧
        res.len = st.len + gen.length ∧
        res.toList 0 = st.toList 0 ++ gen ∧
        gen.length ≤ fuel ∧
        SentinelOnlyLast gen := by
  intro fuel
  induction fuel with
  | zero =>
      intro st hlen
      exact ⟨st, [], rfl, by simp, by simp, by simp, sentinelOnlyLast_nil⟩
  | succ fuel ih =>
      intro st hlen
      rw [generateAux_succ_one]
      set nxt := sampler fuel (fun b =>
        softmaxRow ((m.logitsFn (min_le_right st.len maxLength)
          (cropContext maxLength st.toks)) b
            ⟨min st.len maxLength - 1, Nat.sub_lt (lt_min hlen hmL) Nat.one_pos⟩))
        with hnxt
      by_cases h0 : (nxt ⟨0, Nat.one_pos⟩).val = 0
      · refine ⟨⟨st.len + 1, appendTok st.toks nxt⟩, [nxt 0], ?_, by simp, ?_, by simp,
          sentinelOnlyLast_singleton _⟩
        · simp only [h0, if_true]
        · have := toList_appendTok st.toks nxt 0
          simpa using this
      · obtain ⟨res, gen, h1, h2, h3, h4, h5⟩ :=
          ih ⟨st.len + 1, appendTok st.toks nxt⟩ (Nat.succ_pos st.len)
        refine ⟨res, nxt 0 :: gen, ?_, ?_, ?_, by simp; omega, ?_⟩
        · simp only [h0, if_false]
          exact h1
        · simp only [h2]
          simp
          omega
        · rw [h3, toList_appendTok st.toks nxt 0]
          simp
        · refine sentinelOnlyLast_cons _ _ ?_ h5
          have : (0 : Fin 1) = ⟨0, Nat.one_pos⟩ := rfl
          rw [this]
          exact h0

/-- The cropped context is exactly the last `min len maxLength` tokens of the
running sequence. -/
theorem cropContext_toList {B V : ℕ} (maxLength len : ℕ)
    (toks : Fin B → Fin len → Fin V) (b : Fin B) :
    GenState.toList ⟨min len maxLength, cropContext maxLength toks⟩ b =
      (GenState.toList ⟨len, toks⟩ b).drop (len - min len maxLength) := by
  apply List.ext_getElem
  · simp [GenState.toList]
    omega
  · intro i h1 h2
    simp [GenState.toList, cropContext]

/-! ### C3: generation length bound and sentinel stop -/

/-- C3: for a single-sequence prompt of positive length `T` and any sampling
outcome, `generate` succeeds, the result is the prompt followed by the
generated tokens, at most `maxNewTokens` tokens are generated (so the result
has length at most `T + maxNewTokens`), and the sentinel token 0 can only
occur as the last generated token: generation stops right after sampling it. -/
theorem generate_length_and_stop
    (m : TutorialLLM vocabularySize dimEmbed maxLength numHeads)
    (sampler : Sampler (Fin 1) (Fin vocabularySize)) (hmL : 0 < maxLength)
    {T : ℕ} (hT : 0 < T) (prompt : Fin 1 → Fin T → Fin vocabularySize)
    (maxNewTokens : ℕ) :
    ∃ res gen,
      m.generate sampler hmL hT prompt maxNewTokens = .ok res ∧
      res.len ≤ T + maxNewTokens ∧
      res.toList 0 = GenState.toList ⟨T, prompt⟩ 0 ++ gen ∧
      gen.length ≤ maxNewTokens ∧
      SentinelOnlyLast gen := by
  obtain ⟨res, gen, h1, h2, h3, h4, h5⟩ :=
    generateAux_ok m sampler hmL maxNewTokens ⟨T, prompt⟩ hT
  have h2' : res.len = T + gen.length := h2
  exact ⟨res, gen, h1, by omega, h3, h4, h5⟩

/-- Witness for C3: a concrete model, prompt and sampler. -/
theorem generate_length_and_stop_witness :
    (0 < 1) ∧
    ∃ res gen,
      zModel.generate (fun _ _ _ => (0 : Fin 1)) Nat.one_pos Nat.one_pos zTok 2 =
        .ok res ∧
      res.len ≤ 1 + 2 ∧
      res.toList 0 = GenState.toList ⟨1, zTok⟩ 0 ++ gen ∧
      gen.length ≤ 2 ∧
      SentinelOnlyLast gen :=
  ⟨Nat.one_pos,
   generate_length_and_stop zModel (fun _ _ _ => (0 : Fin 1)) Nat.one_pos
     Nat.one_pos zTok 2⟩

/-! ### C8: sliding-window truncation, no length errors -/

/-- C8: every generation step feeds the forward pass the crop
`token_ids[:, -max_length:]` — exactly the last `min len maxLength` tokens of
the running sequence — and single-sequence generation never errors, in
particular not for prompts longer than `maxLength`. -/
theorem generate_crop_window
    (m : TutorialLLM vocabularySize dimEmbed maxLength numHeads)
    (sampler : Sampler (Fin 1) (Fin vocabularySize)) (hmL : 0 < maxLength)
    {T : ℕ} (hT : 0 < T) (prompt : Fin 1 → Fin T → Fin vocabularySize)
    (maxNewTokens : ℕ) :
    (∀ (len : ℕ) (toks : Fin 1 → Fin len → Fin vocabularySize) (b : Fin 1),
        GenState.toList ⟨min len maxLength, cropContext maxLength toks⟩ b =
          (GenState.toList ⟨len, toks⟩ b).drop (len - min len maxLength)) ∧
    ∃ res, m.generate sampler hmL hT prompt maxNewTokens = .ok res := by
  refine ⟨fun len toks b => cropContext_toList maxLength len toks b, ?_⟩
  obtain ⟨res, gen, h1, -⟩ :=
    generateAux_ok m sampler hmL maxNewTokens ⟨T, prompt⟩ hT
  exact ⟨res, h1⟩

/-- A model with context window 2, for prompts longer than the window. -/
def zModel2 : TutorialLLM 1 1 2 1 := zeroModel 1 1 2 1

/-- A single-sequence prompt of length 3 (longer than `zModel2`'s window). -/
def prompt3 : Fin 1 → Fin 3 → Fin 1 := fun _ _ => 0

/-- Witness for C8: a prompt of length 3 against a context window of 2. -/
theorem generate_crop_window_witness :
    (0 < 2) ∧ (0 < 3) ∧
    ((∀ (len : ℕ) (toks : Fin 1 → Fin len → Fin 1) (b : Fin 1),
        GenState.toList ⟨min len 2, cropContext 2 toks⟩ b =
          (GenState.toList ⟨len, toks⟩ b).drop (len - min len 2)) ∧
     ∃ res, zModel2.generate (fun _ _ _ => (0 : Fin 1)) (by decide) (by decide)
        prompt3 4 = .ok res) :=
  ⟨by decide, by decide,
   generate_crop_window zModel2 (fun _ _ _ => (0 : Fin 1)) (by decide) (by decide)
     prompt3 4⟩

/-! ### C10: multi-sequence batches make `.item()` raise -/

/-- `torch.Tensor.item` raises when the batch size is not 1. -/
theorem item_of_batch_ne_one {B V : ℕ} (hB : B ≠ 1) (x : Fin B → Fin V) :
    item x = .error itemErrorMessage := by
  rw [item, dif_neg hB]

/-- C10: for every prompt batch of 2 or more sequences and at least one
requested new token, the `.item()` call in the end-of-sequence check of
`generate` raises on the first generation step, so `generate` errors. -/
theorem generate_batch_item_error
    (m : TutorialLLM vocabularySize dimEmbed maxLength numHeads) {B : ℕ}
    (sampler : Sampler (Fin B) (Fin vocabularySize)) (hmL : 0 < maxLength)
    {T : ℕ} (hT : 0 < T) (prompt : Fin B → Fin T → Fin vocabularySize)
    (maxNewTokens : ℕ) (hB : 2 ≤ B) (hn : 1 ≤ maxNewTokens) :
    m.generate sampler hmL hT prompt maxNewTokens = .error itemErrorMessage := by
  obtain ⟨k, rfl⟩ : ∃ k, maxNewTokens = k + 1 := ⟨maxNewTokens - 1, by omega⟩
  unfold TutorialLLM.generate TutorialLLM.generateAux
  simp only [item_of_batch_ne_one (show B ≠ 1 by omega)]

/-- Witness for C10: a batch of 2 sequences errors on the first step. -/
theorem generate_batch_item_error_witness :
    (2 ≤ 2) ∧ (1 ≤ 1) ∧
    zModel.generate (fun _ _ _ => (0 : Fin 1)) Nat.one_pos Nat.one_pos
        (fun (_ : Fin 2) (_ : Fin 1) => (0 : Fin 1)) 1 = .error itemErrorMessage :=
  ⟨le_refl 2, le_refl 1,
   generate_batch_item_error zModel (fun _ _ _ => (0 : Fin 1)) Nat.one_pos
     Nat.one_pos (fun _ _ => 0) 1 (le_refl 2) (le_refl 1)⟩

end Model
